import Mathlib

/-!
Verification of the base-station operator console
(`base_station_gui2/tabbed_window.py`) against its natural-language
specification.  The Python data model and the handlers the claims talk
about are shallowly embedded below: the nested status dictionaries become
association lists over an enumerated metric type, the asynchronous
handlers become pure state-transition functions, and the float arithmetic
of the telemetry path is modelled over the reals with Python's
round-half-to-even rounding made explicit.
-/

namespace BaseStation

/-! ### Python dictionary primitives

`feedback_dict` and the other per-vehicle tables are Python `dict`s.  A
`dict` keeps the position of the first insertion of a key and overwrites
the value on re-insertion; lookup finds the unique entry for a key.
-/

/-- Lookup in an association list, mirroring Python `d[k]` / `d.get(k)`. -/
def dict_get? {κ ν : Type _} [DecidableEq κ] (k : κ) : List (κ × ν) → Option ν
  | [] => none
  | (k', v) :: rest => if k' = k then some v else dict_get? k rest

/-- Insertion `d[k] = v`, keeping the first-insertion position of `k` and
overwriting its value, as a Python `dict` does. -/
def dict_insert {κ ν : Type _} [DecidableEq κ] (k : κ) (v : ν) : List (κ × ν) → List (κ × ν)
  | [] => [(k, v)]
  | (k', v') :: rest => if k' = k then (k, v) :: rest else (k', v') :: dict_insert k v rest

@[simp] theorem dict_get?_nil {κ ν : Type _} [DecidableEq κ] (k : κ) :
    dict_get? k ([] : List (κ × ν)) = none := rfl

theorem dict_get?_insert_self {κ ν : Type _} [DecidableEq κ] (k : κ) (v : ν)
    (l : List (κ × ν)) : dict_get? k (dict_insert k v l) = some v := by
  induction l with
  | nil => simp [dict_insert, dict_get?]
  | cons p rest ih =>
    obtain ⟨k', v'⟩ := p
    by_cases h : k' = k
    · simp [dict_insert, dict_get?, h]
    · simp [dict_insert, dict_get?, h, ih]

theorem dict_get?_insert_ne {κ ν : Type _} [DecidableEq κ] {k k' : κ} (v : ν)
    (l : List (κ × ν)) (h : k' ≠ k) :
    dict_get? k' (dict_insert k v l) = dict_get? k' l := by
  induction l with
  | nil => simp [dict_insert, dict_get?, Ne.symm h]
  | cons p rest ih =>
    obtain ⟨k₀, v₀⟩ := p
    by_cases hk : k₀ = k
    · subst hk
      simp [dict_insert, dict_get?, Ne.symm h]
    · simp only [dict_insert, if_neg hk, dict_get?]
      by_cases hk' : k₀ = k'
      · simp [hk']
      · simp [hk', ih]

/-- Every value put into a dict by `dict_insert` either was there before or
is the inserted one. -/
theorem dict_insert_forall {κ ν : Type _} [DecidableEq κ] {P : ν → Prop}
    {k : κ} {v : ν} {l : List (κ × ν)} (hl : ∀ p ∈ l, P p.2) (hv : P v) :
    ∀ p ∈ dict_insert k v l, P p.2 := by
  induction l with
  | nil =>
    intro q hq
    simp only [dict_insert, List.mem_singleton] at hq
    simpa [hq] using hv
  | cons p rest ih =>
    obtain ⟨k₀, v₀⟩ := p
    by_cases hk : k₀ = k
    · intro q hq
      simp only [dict_insert, if_pos hk] at hq
      rcases List.mem_cons.mp hq with hq' | hq'
      · simpa [hq'] using hv
      · exact hl _ (List.mem_cons_of_mem _ hq')
    · intro q hq
      simp only [dict_insert, if_neg hk] at hq
      rcases List.mem_cons.mp hq with hq' | hq'
      · exact hl _ (by simp [hq'])
      · exact ih (fun p hp => hl p (List.mem_cons_of_mem _ hp)) _ hq'

/-! ### The vehicle status store

`MainWindow.__init__` builds `feedback_dict`: an outer dict keyed by the
metric name, each inner dict keyed by the selected vehicle numbers
(`tabbed_window.py` lines 136-188).
-/

/-- The keys of `feedback_dict`, in source order. -/
inductive MetricKey
  | Wifi | Radio | Modem
  | DVL | GPS | IMU | Battery
  | Status_messages
  | Console_messages
  | Missions
  | Modem_seconds | Radio_seconds
  | XPos | YPos | Depth | Heading | Waypoint
  | DVL_vel | Angular_vel | Pressure
  deriving DecidableEq, Repr

/-- A value stored in `feedback_dict`: Python stores numbers, strings or
lists of strings there depending on the key. -/
inductive StatusValue
  | num (q : ℚ)
  | str (s : String)
  | strList (l : List String)
  deriving DecidableEq, Repr

/-- The initial inner dictionary for one metric key, as built by the dict
comprehensions in `MainWindow.__init__`: health/telemetry metrics start at
`2` (waiting), `Status_messages` and `Missions` at `""`, and
`Console_messages` at `[]`. -/
def feedback_default : MetricKey → StatusValue
  | .Status_messages => .str ""
  | .Missions => .str ""
  | .Console_messages => .strList []
  | _ => .num 2

/-- `feedback_dict` right after `MainWindow.__init__`: for every metric
key, one entry per selected vehicle holding that key's default. -/
def feedback_dict_init (selected_vehicles : List ℕ) (k : MetricKey) :
    List (ℕ × StatusValue) :=
  selected_vehicles.map (fun vehicle_num => (vehicle_num, feedback_default k))

/-- The defaults the specification documents, stated from the spec's own
words: the `Waiting` value for health/telemetry metrics, the empty string
for status messages, the empty sequence for console logs. -/
def spec_documented_default : MetricKey → StatusValue
  | .Status_messages => .str ""
  | .Missions => .str ""
  | .Console_messages => .strList []
  | _ => .num 2

theorem dict_get?_feedback_init {selected : List ℕ} {v : ℕ} (hv : v ∈ selected)
    (k : MetricKey) :
    dict_get? v (feedback_dict_init selected k) = some (feedback_default k) := by
  induction selected with
  | nil => cases hv
  | cons a rest ih =>
    by_cases h : a = v
    · simp [feedback_dict_init, dict_get?, h]
    · rcases List.mem_cons.mp hv with hv' | hv'
      · exact absurd hv'.symm h
      · simpa [feedback_dict_init, dict_get?, h] using ih hv'

/-- C2: Immediately after session initialization, for every VehicleId in
the selected set and every MetricKey of the status store, a lookup of
(MetricKey, VehicleId) succeeds and returns the documented default: the
Waiting value for health/telemetry metrics, the empty string for status
messages, and the empty sequence for console logs. -/
theorem feedback_init_lookup_default (selected : List ℕ) (v : ℕ)
    (hv : v ∈ selected) (k : MetricKey) :
    dict_get? v (feedback_dict_init selected k) = some (spec_documented_default k) := by
  rw [dict_get?_feedback_init hv k]
  cases k <;> rfl

/-- Witness for C2 at a concrete session: vehicles `[1, 2, 3]`, vehicle 2,
the `Wifi`, `Status_messages` and `Console_messages` metrics. -/
theorem feedback_init_lookup_default_witness :
    (2 ∈ [1, 2, 3]) ∧
      dict_get? 2 (feedback_dict_init [1, 2, 3] .Wifi) = some (.num 2) ∧
      dict_get? 2 (feedback_dict_init [1, 2, 3] .Status_messages) = some (.str "") ∧
      dict_get? 2 (feedback_dict_init [1, 2, 3] .Console_messages) = some (.strList []) :=
  ⟨by decide,
   feedback_init_lookup_default [1, 2, 3] 2 (by decide) .Wifi,
   feedback_init_lookup_default [1, 2, 3] 2 (by decide) .Status_messages,
   feedback_init_lookup_default [1, 2, 3] 2 (by decide) .Console_messages⟩

/-! ### Connectivity prober and modem shutoff policy

`get_IP_addresses` (lines 372-399) resolves the selected vehicles in
`deploy_config.json`; `ping_vehicles_via_wifi` (401-420) reports a dict
`ip ↦ 0/1`; `update_wifi_widgets` (422-454) stores changed values and
calls `modem_shut_off_service` (1395-1416), which issues exactly one
`ModemControl` request per call.
-/

/-- One `ModemControl.Request` as built by `modem_shut_off_service`:
`modem_shut_off = shutoff`, `vehicle_id` as passed. -/
structure ModemRequest where
  modem_shut_off : Bool
  vehicle_id : ℕ
  deriving DecidableEq, Repr

/-- State threaded through `update_wifi_widgets`: the `"Wifi"` inner dict
of `feedback_dict` (as a total map, vehicles outside the selected set
never being consulted), the console lines emitted so far, and the modem
requests issued so far. -/
structure WifiState where
  wifi : ℕ → ℚ
  console : List (String × ℕ)
  requests : List ModemRequest

/-- The console text `update_wifi_widgets` logs on a change. -/
def wifi_change_message (reachable : ℚ) (vehicle_number : ℕ) : String :=
  (if reachable = 1 then "Ping successful for" else "Unable to Ping") ++
    " vehicle" ++ toString vehicle_number

/-- One iteration of the `for ip, reachable in IPs_dict.items()` loop of
`update_wifi_widgets`: skip unknown IPs; on a changed value store it, log
it, and call `modem_shut_off_service (bool reachable) vehicle_number`. -/
def update_wifi_step (ip_to_vehicle : String → Option ℕ) (st : WifiState)
    (entry : String × ℚ) : WifiState :=
  match ip_to_vehicle entry.1 with
  | none => st
  | some vehicle_number =>
    let reachable := entry.2
    if st.wifi vehicle_number ≠ reachable then
      { wifi := Function.update st.wifi vehicle_number reachable
        console := st.console ++ [(wifi_change_message reachable vehicle_number, vehicle_number)]
        requests := st.requests ++ [⟨reachable = 1, vehicle_number⟩] }
    else st

/-- `update_wifi_widgets(IPs_dict)`: fold the loop body over the report. -/
def update_wifi_widgets (ip_to_vehicle : String → Option ℕ)
    (report : List (String × ℚ)) (st : WifiState) : WifiState :=
  report.foldl (update_wifi_step ip_to_vehicle) st

/-- The modem requests a state holds for one vehicle. -/
def requests_for (v : ℕ) (st : WifiState) : List ModemRequest :=
  st.requests.filter (fun r => r.vehicle_id = v)

theorem update_wifi_step_requests_for (f : String → Option ℕ) (st : WifiState)
    (entry : String × ℚ) {v : ℕ} (hv : f entry.1 ≠ some v) :
    requests_for v (update_wifi_step f st entry) = requests_for v st ∧
      (update_wifi_step f st entry).wifi v = st.wifi v := by
  unfold update_wifi_step
  cases hf : f entry.1 with
  | none => exact ⟨rfl, rfl⟩
  | some w =>
    have hw : w ≠ v := fun h => hv (h ▸ hf)
    by_cases hch : st.wifi w ≠ entry.2
    · simp only [if_pos hch]
      constructor
      · simp [requests_for, List.filter_append, hw]
      · simp [Function.update_noteq (Ne.symm hw)]
    · simp [if_neg hch]

/-- Entries whose IP does not resolve to `v` leave `v`'s wifi value and
`v`'s modem requests untouched. -/
theorem update_wifi_widgets_untouched (f : String → Option ℕ)
    (report : List (String × ℚ)) {v : ℕ}
    (h : ∀ entry ∈ report, f entry.1 ≠ some v) :
    ∀ st : WifiState,
      requests_for v (update_wifi_widgets f report st) = requests_for v st ∧
        (update_wifi_widgets f report st).wifi v = st.wifi v := by
  induction report with
  | nil => intro st; exact ⟨rfl, rfl⟩
  | cons e rest ih =>
    intro st
    have hstep := update_wifi_step_requests_for f st e (h e (List.mem_cons_self e rest))
    have hrest := ih (fun q hq => h q (List.mem_cons_of_mem _ hq))
      (update_wifi_step f st e)
    exact ⟨hrest.1.trans hstep.1, hrest.2.trans hstep.2⟩

/-- C1: for a vehicle `V` whose IP occurs exactly once in the arriving
probe report, `update_wifi_widgets` issues exactly one modem-shutoff
request when the report flips `V`'s stored Wifi value from Unreachable (0)
to Reachable (1), exactly one modem power-on request on the reverse flip,
and no request when the reported value equals the stored one. -/
theorem update_wifi_modem_policy (f : String → Option ℕ)
    (report : List (String × ℚ)) (wifi0 : ℕ → ℚ) (V : ℕ) (ipV : String) (r : ℚ)
    (hmem : (ipV, r) ∈ report)
    (hV : f ipV = some V)
    (hnodup : (report.map Prod.fst).Nodup)
    (honly : ∀ p ∈ report, f p.1 = some V → p.1 = ipV) :
    (wifi0 V = 0 ∧ r = 1 →
      requests_for V (update_wifi_widgets f report ⟨wifi0, [], []⟩) = [⟨true, V⟩]) ∧
    (wifi0 V = 1 ∧ r = 0 →
      requests_for V (update_wifi_widgets f report ⟨wifi0, [], []⟩) = [⟨false, V⟩]) ∧
    (wifi0 V = r →
      requests_for V (update_wifi_widgets f report ⟨wifi0, [], []⟩) = []) := by
  obtain ⟨l₁, l₂, rfl⟩ := List.append_of_mem hmem
  have hkeys : ((l₁ ++ (ipV, r) :: l₂).map Prod.fst).Nodup := hnodup
  rw [List.map_append, List.map_cons] at hkeys
  have hdisj := List.disjoint_of_nodup_append hkeys
  have hipV_l₁ : ∀ p ∈ l₁, p.1 ≠ ipV := by
    intro p hp heq
    exact hdisj (List.mem_map.mpr ⟨p, hp, rfl⟩) (by simp [heq])
  have hipV_l₂ : ∀ p ∈ l₂, p.1 ≠ ipV := by
    intro p hp heq
    have hcons : ((ipV, r).1 :: l₂.map Prod.fst).Nodup :=
      List.Nodup.of_append_right hkeys
    exact (List.nodup_cons.mp hcons).1 (List.mem_map.mpr ⟨p, hp, heq⟩)
  have hnotV_l₁ : ∀ p ∈ l₁, f p.1 ≠ some V := by
    intro p hp hfp
    exact hipV_l₁ p hp (honly p (by simp [hp]) hfp)
  have hnotV_l₂ : ∀ p ∈ l₂, f p.1 ≠ some V := by
    intro p hp hfp
    exact hipV_l₂ p hp (honly p (by simp [hp]) hfp)
  have key : ∀ st : WifiState,
      requests_for V (update_wifi_widgets f (l₁ ++ (ipV, r) :: l₂) st) =
        requests_for V st ++
          (if st.wifi V ≠ r then [⟨decide (r = 1), V⟩] else []) := by
    intro st
    unfold update_wifi_widgets
    rw [List.foldl_append, List.foldl_cons]
    have h₁ := update_wifi_widgets_untouched f l₁ hnotV_l₁ st
    have h₂ := update_wifi_widgets_untouched f l₂ hnotV_l₂
    unfold update_wifi_widgets at h₁ h₂
    set st₁ := l₁.foldl (update_wifi_step f) st with hst₁
    have hstep : requests_for V (update_wifi_step f st₁ (ipV, r)) =
        requests_for V st ++ (if st.wifi V ≠ r then [⟨decide (r = 1), V⟩] else []) ∧
        True := by
      refine ⟨?_, trivial⟩
      unfold update_wifi_step
      simp only [hV]
      rw [h₁.2]
      by_cases hch : st.wifi V ≠ r
      · simp only [if_pos hch]
        have h₁' : List.filter (fun q => decide (q.vehicle_id = V)) st₁.requests =
            List.filter (fun q => decide (q.vehicle_id = V)) st.requests := by
          simpa [requests_for] using h₁.1
        simp [requests_for, List.filter_append, h₁']
      · simp only [if_neg hch, if_neg hch]
        simp [h₁.1]
    rw [(h₂ (update_wifi_step f st₁ (ipV, r))).1, hstep.1]
  refine ⟨?_, ?_, ?_⟩
  · rintro ⟨h0, h1⟩
    rw [key ⟨wifi0, [], []⟩]
    subst h1
    simp [requests_for, h0]
  · rintro ⟨h0, h1⟩
    rw [key ⟨wifi0, [], []⟩]
    subst h1
    simp [requests_for, h0]
  · intro h0
    rw [key ⟨wifi0, [], []⟩]
    simp [requests_for, h0]

/-- Witness for C1: one vehicle at `10.0.0.1`, initial Wifi value 0
(unreachable), report says reachable; exactly one shutoff request. -/
theorem update_wifi_modem_policy_witness :
    requests_for 1
        (update_wifi_widgets
          (fun ip => if ip = "10.0.0.1" then some 1 else none)
          [("10.0.0.1", 1)] ⟨fun _ => 0, [], []⟩) = [⟨true, 1⟩] :=
  (update_wifi_modem_policy (fun ip => if ip = "10.0.0.1" then some 1 else none)
    [("10.0.0.1", 1)] (fun _ => 0) 1 "10.0.0.1" 1
    (by decide) (by decide) (by decide)
    (by intro p hp _; simpa using congrArg Prod.fst (List.mem_singleton.mp hp))).1
    ⟨rfl, rfl⟩

/-! ### IP resolution at session start (`get_IP_addresses`) -/

/-- The error text logged for a vehicle missing from the config. -/
def config_missing_message (num : ℕ) : String :=
  "❌ Vehicle " ++ toString num ++ " not found in config, consider adding to config.json"

/-- Result of `get_IP_addresses`: `self.Vehicle_IP_addresses`,
`self.ip_to_vehicle` (a Python dict) and the console errors logged. -/
structure IPResolution where
  Vehicle_IP_addresses : List String
  ip_to_vehicle : List (String × ℕ)
  console : List (String × ℕ)

/-- `get_IP_addresses` (lines 372-399): for each selected vehicle look up
`str(num)` in the config's `vehicles` mapping; found vehicles contribute
their `remote_host` to the IP list and to `ip_to_vehicle`, missing
vehicles only log a per-vehicle error. -/
def get_IP_addresses (vehicles : List (String × String)) (selected_vehicles : List ℕ) :
    IPResolution :=
  selected_vehicles.foldl
    (fun st num =>
      match dict_get? (toString num) vehicles with
      | some ip =>
        { st with
          Vehicle_IP_addresses := st.Vehicle_IP_addresses ++ [ip]
          ip_to_vehicle := dict_insert ip num st.ip_to_vehicle }
      | none =>
        { st with console := st.console ++ [(config_missing_message num, num)] })
    ⟨[], [], []⟩

/-- All `ip_to_vehicle` values produced by `get_IP_addresses` are vehicles
that are present in the config. -/
theorem get_IP_addresses_values (vehicles : List (String × String))
    (selected_vehicles : List ℕ) :
    ∀ p ∈ (get_IP_addresses vehicles selected_vehicles).ip_to_vehicle,
      dict_get? (toString p.2) vehicles ≠ none := by
  suffices h : ∀ st : IPResolution,
      (∀ p ∈ st.ip_to_vehicle, dict_get? (toString p.2) vehicles ≠ none) →
      ∀ p ∈ (selected_vehicles.foldl
        (fun st num =>
          match dict_get? (toString num) vehicles with
          | some ip =>
            { st with
              Vehicle_IP_addresses := st.Vehicle_IP_addresses ++ [ip]
              ip_to_vehicle := dict_insert ip num st.ip_to_vehicle }
          | none =>
            { st with console := st.console ++ [(config_missing_message num, num)] })
        st).ip_to_vehicle,
        dict_get? (toString p.2) vehicles ≠ none by
    exact h ⟨[], [], []⟩ (by intro p hp; cases hp)
  induction selected_vehicles with
  | nil => intro st hst; exact hst
  | cons num rest ih =>
    intro st hst
    rw [List.foldl_cons]
    cases hcfg : dict_get? (toString num) vehicles with
    | some ip =>
      simp only [hcfg]
      exact ih _ (dict_insert_forall
        (P := fun v => dict_get? (toString v) vehicles ≠ none) hst
        (fun h => by rw [hcfg] at h; cases h))
    | none =>
      simp only [hcfg]
      exact ih _ hst

/-- If no vehicle in the config resolves—even transitively—to `V`, then no
IP is mapped to `V`, so `dict_get?` on `ip_to_vehicle` never returns `V`. -/
theorem ip_to_vehicle_lookup_ne (vehicles : List (String × String))
    (selected_vehicles : List ℕ) {V : ℕ}
    (habsent : dict_get? (toString V) vehicles = none) (ip : String) :
    dict_get? ip (get_IP_addresses vehicles selected_vehicles).ip_to_vehicle ≠ some V := by
  intro hlook
  have hmem : ∀ (l : List (String × ℕ)) (v : ℕ),
      dict_get? ip l = some v → (ip, v) ∈ l := by
    intro l
    induction l with
    | nil => intro v h; cases h
    | cons p rest ihl =>
      intro v h
      obtain ⟨k, w⟩ := p
      by_cases hk : k = ip
      · simp only [dict_get?, if_pos hk] at h
        simp [hk, ← Option.some_inj.mp h]
      · simp only [dict_get?, if_neg hk] at h
        exact List.mem_cons_of_mem _ (ihl v h)
  have := get_IP_addresses_values vehicles selected_vehicles _
    (hmem _ V hlook)
  exact this habsent

/-- C10: a selected vehicle `V` that is absent from the config's
`vehicles` mapping gets a per-vehicle error logged by `get_IP_addresses`,
gets no entry in `ip_to_vehicle`, and therefore, whatever sequence of
wifi probe reports later arrives, its Wifi metric stays at the initial
Waiting value `2` and no wifi-driven modem request is ever issued for it. -/
theorem absent_vehicle_never_probed (vehicles : List (String × String))
    (selected_vehicles : List ℕ) (V : ℕ)
    (hsel : V ∈ selected_vehicles)
    (habsent : dict_get? (toString V) vehicles = none) :
    (config_missing_message V, V) ∈
        (get_IP_addresses vehicles selected_vehicles).console ∧
    (∀ p ∈ (get_IP_addresses vehicles selected_vehicles).ip_to_vehicle, p.2 ≠ V) ∧
    ∀ reports : List (List (String × ℚ)),
      (reports.foldl
        (fun st report =>
          update_wifi_widgets
            (fun ip => dict_get? ip
              (get_IP_addresses vehicles selected_vehicles).ip_to_vehicle)
            report st)
        ⟨fun _ => 2, [], []⟩).wifi V = 2 ∧
      requests_for V
        (reports.foldl
          (fun st report =>
            update_wifi_widgets
              (fun ip => dict_get? ip
                (get_IP_addresses vehicles selected_vehicles).ip_to_vehicle)
              report st)
          ⟨fun _ => 2, [], []⟩) = [] := by
  refine ⟨?_, ?_, ?_⟩
  · -- the error line is logged, and the console only ever grows
    suffices h : ∀ st : IPResolution,
        ((config_missing_message V, V) ∈ st.console ∨ V ∈ selected_vehicles) →
        (config_missing_message V, V) ∈
          (selected_vehicles.foldl
            (fun st num =>
              match dict_get? (toString num) vehicles with
              | some ip =>
                { st with
                  Vehicle_IP_addresses := st.Vehicle_IP_addresses ++ [ip]
                  ip_to_vehicle := dict_insert ip num st.ip_to_vehicle }
              | none =>
                { st with console := st.console ++ [(config_missing_message num, num)] })
            st).console by
      exact h ⟨[], [], []⟩ (Or.inr hsel)
    clear hsel
    induction selected_vehicles with
    | nil =>
      intro st hst
      rcases hst with h | h
      · exact h
      · cases h
    | cons num rest ih =>
      intro st hst
      rw [List.foldl_cons]
      cases hcfg : dict_get? (toString num) vehicles with
      | some ip =>
        simp only [hcfg]
        refine ih _ ?_
        rcases hst with h | h
        · exact Or.inl h
        · rcases List.mem_cons.mp h with h' | h'
          · subst h'; rw [habsent] at hcfg; cases hcfg
          · exact Or.inr h'
      | none =>
        simp only [hcfg]
        refine ih _ ?_
        rcases hst with h | h
        · exact Or.inl (List.mem_append_left _ h)
        · rcases List.mem_cons.mp h with h' | h'
          · subst h'; exact Or.inl (by simp)
          · exact Or.inr h'
  · intro p hp hpV
    exact get_IP_addresses_values vehicles selected_vehicles p hp (hpV ▸ habsent)
  · intro reports
    suffices h : ∀ st : WifiState,
        (reports.foldl
          (fun st report =>
            update_wifi_widgets
              (fun ip => dict_get? ip
                (get_IP_addresses vehicles selected_vehicles).ip_to_vehicle)
              report st) st).wifi V = st.wifi V ∧
        requests_for V
          (reports.foldl
            (fun st report =>
              update_wifi_widgets
                (fun ip => dict_get? ip
                  (get_IP_addresses vehicles selected_vehicles).ip_to_vehicle)
                report st) st) = requests_for V st by
      have := h ⟨fun _ => 2, [], []⟩
      exact ⟨this.1, by simpa [requests_for] using this.2⟩
    induction reports with
    | nil => intro st; exact ⟨rfl, rfl⟩
    | cons report rest ih =>
      intro st
      rw [List.foldl_cons]
      have hstep := update_wifi_widgets_untouched
        (fun ip => dict_get? ip
          (get_IP_addresses vehicles selected_vehicles).ip_to_vehicle)
        report
        (fun entry _ => ip_to_vehicle_lookup_ne vehicles selected_vehicles habsent entry.1)
        st
      have hrest := ih (update_wifi_widgets
        (fun ip => dict_get? ip
          (get_IP_addresses vehicles selected_vehicles).ip_to_vehicle)
        report st)
      exact ⟨hrest.1.trans hstep.2, hrest.2.trans hstep.1⟩

/-- Witness for C10: vehicle 2 selected but only vehicle 1 in the config;
one probe round for vehicle 1's IP arrives. -/
theorem absent_vehicle_never_probed_witness :
    ((config_missing_message 2, 2) ∈
        (get_IP_addresses [("1", "10.0.0.1")] [1, 2]).console ∧
      (∀ p ∈ (get_IP_addresses [("1", "10.0.0.1")] [1, 2]).ip_to_vehicle, p.2 ≠ 2) ∧
      ∀ reports : List (List (String × ℚ)),
        (reports.foldl
          (fun st report =>
            update_wifi_widgets
              (fun ip => dict_get? ip
                (get_IP_addresses [("1", "10.0.0.1")] [1, 2]).ip_to_vehicle)
              report st)
          ⟨fun _ => 2, [], []⟩).wifi 2 = 2 ∧
        requests_for 2
          (reports.foldl
            (fun st report =>
              update_wifi_widgets
                (fun ip => dict_get? ip
                  (get_IP_addresses [("1", "10.0.0.1")] [1, 2]).ip_to_vehicle)
                report st)
            ⟨fun _ => 2, [], []⟩) = []) :=
  absent_vehicle_never_probed [("1", "10.0.0.1")] [1, 2] 2 (by decide) (by decide)

/-! ### Console log updates

`handle_console_log` (lines 724-733) routes an incoming `msg` by
`vehicle_number`; `_update_console_gui` (2453-2484) appends the message
to the `Console_messages{v}` label of each targeted vehicle.  Such a
label exists exactly for the selected vehicles (they are created per
vehicle tab, line 1738); for any other vehicle `findChild` returns `None`
and only a diagnostic is printed.
-/

/-- `_update_console_gui(console_message, vehicle_number)`: the per-vehicle
console texts, as a total map from vehicle number to its list of lines
(the label text, split at the inserted newlines). -/
def update_console_gui (selected_vehicles : List ℕ) (logs : ℕ → List String)
    (console_message : String) (vehicle_number : ℕ) : ℕ → List String :=
  let vehicle_numbers := if vehicle_number = 0 then selected_vehicles else [vehicle_number]
  vehicle_numbers.foldl
    (fun lg vehicle =>
      if vehicle ∈ selected_vehicles then
        Function.update lg vehicle (lg vehicle ++ [console_message])
      else lg)
    logs

/-- `handle_console_log(msg)`: broadcast id 0 fans the message out to every
selected vehicle; a specific id is honored only when selected. -/
def handle_console_log (selected_vehicles : List ℕ) (logs : ℕ → List String)
    (message : String) (vehicle_number : ℕ) : ℕ → List String :=
  if vehicle_number = 0 then
    selected_vehicles.foldl
      (fun lg i => update_console_gui selected_vehicles lg message i) logs
  else if vehicle_number ∈ selected_vehicles then
    update_console_gui selected_vehicles logs message vehicle_number
  else logs

theorem update_console_gui_selected (selected : List ℕ) (logs : ℕ → List String)
    (message : String) {v : ℕ} (hv : v ∈ selected) (hv0 : v ≠ 0) :
    update_console_gui selected logs message v =
      Function.update logs v (logs v ++ [message]) := by
  unfold update_console_gui
  simp [hv0, hv]

/-- The broadcast fold of `handle_console_log` appends the message to each
log in the folded list exactly once, and touches no other log. -/
theorem console_broadcast_fold (selected : List ℕ) (message : String) :
    ∀ (l : List ℕ) (lg : ℕ → List String), l.Nodup →
      (∀ i ∈ l, i ∈ selected ∧ i ≠ 0) →
      ∀ w : ℕ,
        (l.foldl (fun lg i => update_console_gui selected lg message i) lg) w =
          if w ∈ l then lg w ++ [message] else lg w := by
  intro l
  induction l with
  | nil => intro lg _ _ w; simp
  | cons a rest ihl =>
    intro lg hnd hsub w
    have ha := hsub a (List.mem_cons_self a rest)
    have hnd' := List.nodup_cons.mp hnd
    rw [List.foldl_cons, update_console_gui_selected selected lg message ha.1 ha.2,
      ihl _ hnd'.2 (fun i hi => hsub i (List.mem_cons_of_mem _ hi)) w]
    by_cases hwa : w = a
    · subst hwa
      simp [hnd'.1, Function.update]
    · simp [Function.update, hwa, List.mem_cons, hwa]

/-- C4: a console update with vehicle id 0 appends the message once to
every selected vehicle's log (the selected set being duplicate-free and
not containing the broadcast id 0); an update with a specific nonzero id
appends only to that vehicle's log when it is selected, and changes no
log at all otherwise. -/
theorem handle_console_log_routing (selected : List ℕ) (logs : ℕ → List String)
    (message : String) (vehicle_number : ℕ)
    (hnodup : selected.Nodup) (h0 : 0 ∉ selected) :
    (vehicle_number = 0 →
      ∀ v ∈ selected,
        handle_console_log selected logs message vehicle_number v =
          logs v ++ [message]) ∧
    (vehicle_number ≠ 0 → vehicle_number ∈ selected →
      (handle_console_log selected logs message vehicle_number vehicle_number =
          logs vehicle_number ++ [message] ∧
        ∀ v, v ≠ vehicle_number →
          handle_console_log selected logs message vehicle_number v = logs v)) ∧
    (vehicle_number ≠ 0 → vehicle_number ∉ selected →
      handle_console_log selected logs message vehicle_number = logs) := by
  refine ⟨?_, ?_, ?_⟩
  · intro hb v hv
    subst hb
    unfold handle_console_log
    rw [if_pos rfl,
      console_broadcast_fold selected message selected logs hnodup
        (fun i hi => ⟨hi, fun hz => h0 (hz ▸ hi)⟩) v]
    simp [hv]
  · intro hnz hmem
    unfold handle_console_log
    rw [if_neg hnz, if_pos hmem,
      update_console_gui_selected selected logs message hmem hnz]
    exact ⟨by simp [Function.update], fun v hv => by simp [Function.update, hv]⟩
  · intro hnz hnmem
    unfold handle_console_log
    rw [if_neg hnz, if_neg hnmem]

/-- Witness for C4: selected vehicles `[1, 2]`, broadcast id 0 reaches
vehicle 2's log; nonzero id 1 reaches only vehicle 1; id 3 (not selected)
is a no-op. -/
theorem handle_console_log_routing_witness :
    ([1, 2].Nodup ∧ (0 : ℕ) ∉ [1, 2]) ∧
      handle_console_log [1, 2] (fun _ => []) "hello" 0 2 = [] ++ ["hello"] ∧
      handle_console_log [1, 2] (fun _ => []) "hello" 1 1 = [] ++ ["hello"] ∧
      handle_console_log [1, 2] (fun _ => []) "hello" 3 = (fun _ => []) :=
  ⟨⟨by decide, by decide⟩,
   (handle_console_log_routing [1, 2] (fun _ => []) "hello" 0
      (by decide) (by decide)).1 rfl 2 (by decide),
   ((handle_console_log_routing [1, 2] (fun _ => []) "hello" 1
      (by decide) (by decide)).2.1 (by decide) (by decide)).1,
   (handle_console_log_routing [1, 2] (fun _ => []) "hello" 3
      (by decide) (by decide)).2.2 (by decide) (by decide)⟩

/-! ### Asynchronous service responses (`handle_service_response`)

Lines 1419-1450: `future.result()` either returns a response with a
boolean `success` or raises.  The handler updates the shared
confirmation label in every case; console routing differs between the
`success` branches (broadcast when `vehicle_number` is 0) and the
exception branch (which only checks `vehicle_number in selected_vehicles`
and otherwise merely prints).
-/

/-- What `future.result()` did: a response carrying `success`, or an
exception with rendered text `e`. -/
inductive ServiceOutcome
  | response (success : Bool)
  | exn (e : String)

/-- Result of one `handle_service_response` run: the text written to all
confirmation labels, the console lines appended as `(vehicle, text)`
pairs, and the lines only printed to stdout. -/
structure ServiceResponseEffect where
  label : String
  console : List (ℕ × String)
  printed : List String
  deriving DecidableEq, Repr

/-- `handle_service_response(future, action, vehicle_number)`. -/
def handle_service_response (selected_vehicles : List ℕ)
    (outcome : ServiceOutcome) (action : String) (vehicle_number : ℕ) :
    ServiceResponseEffect :=
  match outcome with
  | .response true =>
    let message := action ++ " Service Initiated Successfully"
    { label := message
      console :=
        if vehicle_number = 0 then
          selected_vehicles.map (fun i => (i, message))
        else if vehicle_number ∈ selected_vehicles then [(vehicle_number, message)]
        else []
      printed := [] }
  | .response false =>
    let message := action ++ " Service Initialization Failed"
    { label := message
      console :=
        if vehicle_number = 0 then
          selected_vehicles.map (fun i => (i, message))
        else if vehicle_number ∈ selected_vehicles then [(vehicle_number, message)]
        else []
      printed := [] }
  | .exn e =>
    let message := action ++ " service call failed: " ++ e
    { label := message
      console :=
        if vehicle_number ∈ selected_vehicles then [(vehicle_number, message)] else []
      printed :=
        if vehicle_number ∈ selected_vehicles then [] else [message] }

/-- Two strings with the same prefix and different suffixes differ. -/
theorem append_ne_of_suffix_ne {a s t : String} (h : s ≠ t) : a ++ s ≠ a ++ t := by
  intro heq
  apply h
  have hd := congrArg String.data heq
  rw [String.data_append, String.data_append] at hd
  have h2 := List.append_cancel_left hd
  cases s; cases t
  exact congrArg String.mk h2

/-- C3's counterexample: a broadcast (vehicle id 0) service call whose
future raises appends no console line at all — the exception branch of
`handle_service_response` only checks `vehicle_number in
selected_vehicles`, and 0 is not a selected vehicle — although the claim
demands a console line for every selected vehicle.  The confirmation
label is still updated. -/
theorem handle_service_response_broadcast_exn_counterexample :
    (1 : ℕ) ∈ [1] ∧
      (handle_service_response [1] (.exn "timeout") "Emergency Shutdown" 0).console = [] ∧
      ¬ ∃ m, ((1 : ℕ), m) ∈
        (handle_service_response [1] (.exn "timeout") "Emergency Shutdown" 0).console := by
  refine ⟨by decide, ?_, ?_⟩
  · simp [handle_service_response]
  · rintro ⟨m, hm⟩
    simp [handle_service_response] at hm

/-- C3, amended: every failed asynchronous service call updates the shared
confirmation label with a failure text distinguishable from the success
text.  A `success=false` response also appends a console line for the
affected vehicle(s) — all selected vehicles when the vehicle id is 0,
the single vehicle when it is selected.  An exception, however, appends a
console line only when the vehicle id itself is in the selected set, so a
broadcast (id 0) exception appends no console line and is only printed. -/
theorem handle_service_response_failure_paths (selected : List ℕ)
    (action e : String) (vehicle_number : ℕ) :
    ((handle_service_response selected (.response false) action vehicle_number).label =
        action ++ " Service Initialization Failed") ∧
    ((handle_service_response selected (.response false) action vehicle_number).console =
        if vehicle_number = 0 then
          selected.map (fun i =>
            (i, action ++ " Service Initialization Failed"))
        else if vehicle_number ∈ selected then
          [(vehicle_number, action ++ " Service Initialization Failed")]
        else []) ∧
    ((handle_service_response selected (.exn e) action vehicle_number).label =
        action ++ " service call failed: " ++ e) ∧
    ((handle_service_response selected (.exn e) action vehicle_number).console =
        if vehicle_number ∈ selected then
          [(vehicle_number, action ++ " service call failed: " ++ e)]
        else []) ∧
    ((handle_service_response selected (.response false) action vehicle_number).label ≠
        (handle_service_response selected (.response true) action vehicle_number).label) ∧
    ((handle_service_response selected (.exn e) action vehicle_number).label ≠
        (handle_service_response selected (.response true) action vehicle_number).label) := by
  refine ⟨rfl, rfl, rfl, rfl, ?_, ?_⟩
  · exact append_ne_of_suffix_ne (by decide)
  · show action ++ " service call failed: " ++ e ≠ action ++ " Service Initiated Successfully"
    rw [String.append_assoc]
    apply append_ne_of_suffix_ne
    intro heq
    have hd := congrArg String.data heq
    rw [String.data_append] at hd
    have h1 := congrArg (fun l => l[1]?) hd
    simp only at h1
    rw [List.getElem?_append_left (by decide)] at h1
    revert h1
    decide

/-! ### Safety-status ingest (`_update_safety_status_information`)

Lines 2144-2187: the handler stores `0` when `gps_status.data` is set and
`1` otherwise (inverted, per the inline "logic is opposite" comment), the
same for `dvl_status.data`, but stores `1` when `imu_published.data` is
set and `0` otherwise — the IMU flag is stored with matching polarity.
-/

/-- The whole `feedback_dict`, outer key to inner Python dict. -/
def FeedbackDict := MetricKey → List (ℕ × StatusValue)

/-- `self.feedback_dict[k][v] = val`. -/
def fb_set (fb : FeedbackDict) (k : MetricKey) (v : ℕ) (val : StatusValue) :
    FeedbackDict :=
  fun k' => if k' = k then dict_insert v val (fb k) else fb k'

/-- `self.feedback_dict[k][v]` as an optional read. -/
def fb_get (fb : FeedbackDict) (k : MetricKey) (v : ℕ) : Option StatusValue :=
  dict_get? v (fb k)

theorem fb_get_set_self (fb : FeedbackDict) (k : MetricKey) (v : ℕ)
    (val : StatusValue) : fb_get (fb_set fb k v val) k v = some val := by
  unfold fb_get fb_set
  rw [if_pos rfl]
  exact dict_get?_insert_self v val (fb k)

theorem fb_get_set_ne_key (fb : FeedbackDict) {k k' : MetricKey} (v v' : ℕ)
    (val : StatusValue) (h : k' ≠ k) :
    fb_get (fb_set fb k v val) k' v' = fb_get fb k' v' := by
  unfold fb_get fb_set
  rw [if_neg h]

/-- The fields of a `SafetyStatus` message the handler reads. -/
structure SafetyMessage where
  gps_status : Bool
  dvl_status : Bool
  imu_published : Bool
  emergency_status : ℚ

/-- `_update_safety_status_information(vehicle_number, safety_message)`:
the inverted GPS/DVL writes, the direct IMU write, and the conditional
`Status_messages` update. -/
def update_safety_status_information (fb : FeedbackDict) (vehicle_number : ℕ)
    (safety_message : SafetyMessage) : FeedbackDict :=
  let gps_data : ℚ := if safety_message.gps_status then 0 else 1
  let dvl_data : ℚ := if safety_message.dvl_status then 0 else 1
  let imu_data : ℚ := if safety_message.imu_published then 1 else 0
  let fb := fb_set fb .GPS vehicle_number (.num gps_data)
  let fb := fb_set fb .DVL vehicle_number (.num dvl_data)
  let fb := fb_set fb .IMU vehicle_number (.num imu_data)
  if fb_get fb .Status_messages vehicle_number ≠
      some (.num safety_message.emergency_status) then
    fb_set fb .Status_messages vehicle_number (.num safety_message.emergency_status)
  else fb

/-- C7's counterexample: a message with every boolean asserted.  The claim
says every sensor-status boolean (GPS, DVL, IMU) is stored inverted, so an
asserted `imu_published` flag would have to be stored as `0`; the code
stores `1`. -/
theorem update_safety_status_imu_not_inverted :
    fb_get
        (update_safety_status_information
          (fun k => feedback_dict_init [1] k) 1
          ⟨true, true, true, 0⟩)
        .IMU 1 = some (.num 1) ∧
      (some (StatusValue.num 1) ≠ some (StatusValue.num 0)) := by
  constructor
  · rw [show fb_get
        (update_safety_status_information (fun k => feedback_dict_init [1] k) 1
          ⟨true, true, true, 0⟩) .IMU 1 =
        dict_get? 1 ((update_safety_status_information
          (fun k => feedback_dict_init [1] k) 1 ⟨true, true, true, 0⟩) .IMU) from rfl]
    decide
  · decide

/-- C7, amended: the GPS and DVL booleans are inverted before storage (an
asserted fault flag is stored as the unhealthy value `0`, a clear flag as
`1`), but the IMU boolean is stored with matching polarity (`imu_published
= true` is stored as `1`). -/
theorem update_safety_status_polarity (fb : FeedbackDict) (vehicle_number : ℕ)
    (m : SafetyMessage) :
    fb_get (update_safety_status_information fb vehicle_number m) .GPS vehicle_number =
        some (.num (if m.gps_status then 0 else 1)) ∧
    fb_get (update_safety_status_information fb vehicle_number m) .DVL vehicle_number =
        some (.num (if m.dvl_status then 0 else 1)) ∧
    fb_get (update_safety_status_information fb vehicle_number m) .IMU vehicle_number =
        some (.num (if m.imu_published then 1 else 0)) := by
  unfold update_safety_status_information
  set fb₁ := fb_set fb .GPS vehicle_number (.num (if m.gps_status then 0 else 1))
  set fb₂ := fb_set fb₁ .DVL vehicle_number (.num (if m.dvl_status then 0 else 1))
  set fb₃ := fb_set fb₂ .IMU vehicle_number (.num (if m.imu_published then 1 else 0))
  have hGPS : fb_get fb₃ .GPS vehicle_number =
      some (.num (if m.gps_status then 0 else 1)) := by
    rw [fb_get_set_ne_key fb₂ _ _ _ (by decide),
      fb_get_set_ne_key fb₁ _ _ _ (by decide)]
    exact fb_get_set_self fb .GPS vehicle_number _
  have hDVL : fb_get fb₃ .DVL vehicle_number =
      some (.num (if m.dvl_status then 0 else 1)) := by
    rw [fb_get_set_ne_key fb₂ _ _ _ (by decide)]
    exact fb_get_set_self fb₁ .DVL vehicle_number _
  have hIMU : fb_get fb₃ .IMU vehicle_number =
      some (.num (if m.imu_published then 1 else 0)) := by
    exact fb_get_set_self fb₂ .IMU vehicle_number _
  by_cases hst : fb_get fb₃ .Status_messages vehicle_number ≠
      some (.num m.emergency_status)
  · rw [if_pos hst]
    exact ⟨by rw [fb_get_set_ne_key fb₃ _ _ _ (by decide)]; exact hGPS,
      by rw [fb_get_set_ne_key fb₃ _ _ _ (by decide)]; exact hDVL,
      by rw [fb_get_set_ne_key fb₃ _ _ _ (by decide)]; exact hIMU⟩
  · rw [if_neg hst]
    exact ⟨hGPS, hDVL, hIMU⟩

/-! ### Fin-calibration dialog key extraction (`CalibrateFinsDialog`)

The dialog's tabs are named `f"Vehicle {i}"` (line 3207) and
`get_states` (3305-3313) builds `states[tab_name[-1]] = [...]` — the key
is only the LAST character of the tab name.  `after_worker` (1330-1339)
then applies the values to vehicle `int(key)`.
-/

/-- The tab title used by the dialog for a vehicle. -/
def vehicle_tab_name (i : ℕ) : String := "Vehicle " ++ toString i

/-- Python `tab_name[-1]` as a one-character string (tab names are never
empty). -/
def last_char_key (tab_name : String) : String :=
  match tab_name.data.getLast? with
  | some c => String.mk [c]
  | none => ""

/-- `CalibrateFinsDialog.get_states()`: fold the `fin_sliders` dict
(tab name ↦ slider values) into a dict keyed by `tab_name[-1]`. -/
def get_states (fin_sliders : List (String × List ℤ)) : List (String × List ℤ) :=
  fin_sliders.foldl
    (fun states entry => dict_insert (last_char_key entry.1) entry.2 states) []

set_option maxRecDepth 100000 in
/-- C9: `get_states` keys each tab by only the last character of its
`"Vehicle N"` title — the bare digit for one-digit vehicle numbers, only
the final digit for larger ones — so two selected vehicles whose numbers
end in the same digit collide on one key, the later tab's fin values
overwriting the earlier vehicle's entry (which `after_worker` then
attributes to vehicle `int(key)`, the single-digit vehicle). -/
theorem get_states_last_digit_collision :
    (∀ n : ℕ, n < 1000 →
      last_char_key (vehicle_tab_name n) = toString (n % 10)) ∧
    (∀ a b : List ℤ,
      get_states [(vehicle_tab_name 2, a), (vehicle_tab_name 12, b)] = [("2", b)]) := by
  constructor
  · decide
  · intro a b
    rfl

/-- Witness for C9: vehicle 7 keys to `"7"`, vehicle 12 to `"2"`, and the
concrete two-tab dialog for vehicles 2 and 12 collapses to a single entry
holding vehicle 12's values. -/
theorem get_states_last_digit_collision_witness :
    ((7 : ℕ) < 1000 ∧ last_char_key (vehicle_tab_name 7) = toString ((7 : ℕ) % 10)) ∧
      ((12 : ℕ) < 1000 ∧ last_char_key (vehicle_tab_name 12) = toString ((12 : ℕ) % 10)) ∧
      get_states [(vehicle_tab_name 2, [1, 2, 3]), (vehicle_tab_name 12, [4, 5, 6])] =
        [("2", [4, 5, 6])] :=
  ⟨⟨by decide, get_states_last_digit_collision.1 7 (by decide)⟩,
   ⟨by decide, get_states_last_digit_collision.1 12 (by decide)⟩,
   get_states_last_digit_collision.2 [1, 2, 3] [4, 5, 6]⟩

/-! ### Theme switching (`set_color_theme`, `apply_theme_to_widgets`)

Lines 456-629 assign the theme attributes per theme name; lines 631-685
re-style the live widgets from those attributes.  Neither function reads
or writes `feedback_dict`; the embedding keeps the store alongside the
theme attributes and widget styles to state that as a frame property.
The CSS text of the pop-up style template is represented structurally by
the colors substituted into it and whether the dark-theme checkbox rules
are appended.
-/

/-- The pop-up window stylesheet, by the data substituted into the fixed
CSS template. -/
structure PopUpStyle where
  bg : String
  text : String
  extra_checkbox_rules : Bool
  deriving DecidableEq, Repr

/-- The theme attributes `set_color_theme` assigns. -/
structure ThemeVars where
  background_color : String
  border_outline : String
  text_color : String
  normal_button_color : String
  danger_button_color : String
  danger_button_style_sheet : String
  normal_button_style_sheet : String
  selected_tab_color : String
  selected_tab_text_color : String
  not_selected_tab_color : String
  not_selected_tab_text_color : String
  check_box_color : String
  dark_icon_bkgrnd_color : String
  light_icon_bkgrnd_color : String
  pop_up_window_style : PopUpStyle
  deriving DecidableEq, Repr

/-- The tab-bar stylesheet of `repaintTabs`, structurally. -/
structure TabBarStyle where
  width_px : ℤ
  not_selected_bg : String
  not_selected_color : String
  selected_bg : String
  selected_color : String
  deriving DecidableEq, Repr

/-- The widget styling `apply_theme_to_widgets` rewrites. -/
structure WidgetStyles where
  tab_bar : TabBarStyle
  tab_background : String
  console_area_style : String
  console_text_color : String
  danger_button_style : String
  normal_button_style : String
  label_color : String
  line_color : String
  result_icon_bkgrnd : String
  waiting_icon_bkgrnd : String
  deriving DecidableEq, Repr

/-- The state of `MainWindow` visible to the theme machinery: the status
store, the fixed button metrics, window geometry, theme attributes and
widget styles. -/
structure MainState where
  feedback_dict : FeedbackDict
  button_padding : ℕ
  button_font_size : ℕ
  width : ℕ
  selected_count : ℕ
  theme : ThemeVars
  widgets : WidgetStyles

/-- The f-string used for both button style sheets. -/
def button_style_sheet (color text_color border_outline : String)
    (button_padding button_font_size : ℕ) : String :=
  "background-color: " ++ color ++ "; color: " ++ text_color ++
    "; border: 2px solid " ++ border_outline ++
    "; padding-top: " ++ toString button_padding ++
    "px; padding-bottom: " ++ toString button_padding ++
    "px; font-size: " ++ toString button_font_size ++ "px;"

/-- `apply_theme_to_widgets` (lines 631-685): recompute every widget style
from the current theme attributes.  Critical-result and apply icons get
the light icon background, waiting icons the dark one. -/
def apply_theme_to_widgets (s : MainState) : MainState :=
  let width_px : ℤ := (s.width : ℤ) / (s.selected_count + 1) - 10
  { s with
    widgets :=
      { tab_bar :=
          { width_px := width_px - 15
            not_selected_bg := s.theme.not_selected_tab_color
            not_selected_color := s.theme.not_selected_tab_text_color
            selected_bg := s.theme.selected_tab_color
            selected_color := s.theme.selected_tab_text_color }
        tab_background := s.theme.background_color
        console_area_style :=
          "border: 2px solid " ++ s.theme.border_outline ++
            "; border-radius: 6px; background: " ++ s.theme.background_color ++ ";"
        console_text_color := s.theme.text_color
        danger_button_style := s.theme.danger_button_style_sheet
        normal_button_style := s.theme.normal_button_style_sheet
        label_color := s.theme.text_color
        line_color := s.theme.text_color
        result_icon_bkgrnd := s.theme.light_icon_bkgrnd_color
        waiting_icon_bkgrnd := s.theme.dark_icon_bkgrnd_color } }

/-- The theme-attribute assignments of `set_color_theme` (lines 456-629),
one branch per recognized theme name; an unrecognized name assigns
nothing. -/
def theme_vars_for (theme : String) (s : MainState) : ThemeVars :=
  if theme = "dark_mode" then
    let background_color := "#0F1C37"
    let border_outline := "#FFFFFF"
    let text_color := "#FFFFFF"
    let normal_button_color := "#28625a"
    let danger_button_color := "#953f10"
    { background_color, border_outline, text_color,
      normal_button_color, danger_button_color,
      danger_button_style_sheet :=
        button_style_sheet danger_button_color text_color border_outline
          s.button_padding s.button_font_size,
      normal_button_style_sheet :=
        button_style_sheet normal_button_color text_color border_outline
          s.button_padding s.button_font_size,
      selected_tab_color := text_color,
      selected_tab_text_color := background_color,
      not_selected_tab_color := background_color,
      not_selected_tab_text_color := text_color,
      check_box_color := text_color,
      dark_icon_bkgrnd_color := text_color,
      light_icon_bkgrnd_color := background_color,
      pop_up_window_style := ⟨background_color, text_color, true⟩ }
  else if theme = "light_mode" then
    let background_color := "#f4f6fc"
    let border_outline := "#000000"
    let text_color := "#000000"
    let danger_button_color := "#faa94a"
    let normal_button_color := "#99d1c5"
    { background_color, border_outline, text_color,
      normal_button_color, danger_button_color,
      danger_button_style_sheet :=
        button_style_sheet danger_button_color text_color border_outline
          s.button_padding s.button_font_size,
      normal_button_style_sheet :=
        button_style_sheet normal_button_color text_color border_outline
          s.button_padding s.button_font_size,
      selected_tab_color := normal_button_color,
      selected_tab_text_color := border_outline,
      not_selected_tab_color := background_color,
      not_selected_tab_text_color := text_color,
      check_box_color := s.theme.check_box_color,
      dark_icon_bkgrnd_color := background_color,
      light_icon_bkgrnd_color := background_color,
      pop_up_window_style := ⟨background_color, text_color, false⟩ }
  else if theme = "blue_pastel" then
    let background_color := "#caedee"
    let border_outline := "#000000"
    let text_color := "#000000"
    let danger_button_color := "#ffdb4f"
    let normal_button_color := "#81b673"
    { background_color, border_outline, text_color,
      normal_button_color, danger_button_color,
      danger_button_style_sheet :=
        button_style_sheet danger_button_color text_color border_outline
          s.button_padding s.button_font_size,
      normal_button_style_sheet :=
        button_style_sheet normal_button_color text_color border_outline
          s.button_padding s.button_font_size,
      selected_tab_color := normal_button_color,
      selected_tab_text_color := border_outline,
      not_selected_tab_color := background_color,
      not_selected_tab_text_color := text_color,
      check_box_color := s.theme.check_box_color,
      dark_icon_bkgrnd_color := background_color,
      light_icon_bkgrnd_color := background_color,
      pop_up_window_style := ⟨background_color, text_color, false⟩ }
  else if theme = "brown_sepia" then
    let background_color := "#f2edd1"
    let border_outline := "#44312b"
    let text_color := "#44312b"
    let danger_button_color := "#44312b"
    let normal_button_color := "#44312b"
    { background_color, border_outline, text_color,
      normal_button_color, danger_button_color,
      danger_button_style_sheet :=
        button_style_sheet danger_button_color background_color border_outline
          s.button_padding s.button_font_size,
      normal_button_style_sheet :=
        button_style_sheet normal_button_color background_color border_outline
          s.button_padding s.button_font_size,
      selected_tab_color := normal_button_color,
      selected_tab_text_color := background_color,
      not_selected_tab_color := background_color,
      not_selected_tab_text_color := text_color,
      check_box_color := s.theme.check_box_color,
      dark_icon_bkgrnd_color := background_color,
      light_icon_bkgrnd_color := background_color,
      pop_up_window_style := ⟨background_color, text_color, false⟩ }
  else if theme = "cadetblue" then
    let background_color := "cadetblue"
    let border_outline := "#44312b"
    let text_color := "#000000"
    let danger_button_color := "red"
    let normal_button_color := "blue"
    { background_color, border_outline, text_color,
      normal_button_color, danger_button_color,
      danger_button_style_sheet :=
        button_style_sheet danger_button_color "#FFFFFF" border_outline
          s.button_padding s.button_font_size,
      normal_button_style_sheet :=
        button_style_sheet normal_button_color "#FFFFFF" border_outline
          s.button_padding s.button_font_size,
      selected_tab_color := "blue",
      selected_tab_text_color := "white",
      not_selected_tab_color := "grey",
      not_selected_tab_text_color := "black",
      check_box_color := s.theme.check_box_color,
      dark_icon_bkgrnd_color := background_color,
      light_icon_bkgrnd_color := background_color,
      pop_up_window_style := ⟨background_color, text_color, false⟩ }
  else if theme = "intense_dark" then
    let background_color := "black"
    let border_outline := "white"
    let text_color := "white"
    let danger_button_color := "white"
    let normal_button_color := "white"
    { background_color, border_outline, text_color,
      normal_button_color, danger_button_color,
      danger_button_style_sheet :=
        button_style_sheet danger_button_color background_color border_outline
          s.button_padding s.button_font_size,
      normal_button_style_sheet :=
        button_style_sheet normal_button_color background_color border_outline
          s.button_padding s.button_font_size,
      selected_tab_color := "white",
      selected_tab_text_color := "black",
      not_selected_tab_color := "black",
      not_selected_tab_text_color := "white",
      check_box_color := s.theme.check_box_color,
      dark_icon_bkgrnd_color := text_color,
      light_icon_bkgrnd_color := background_color,
      pop_up_window_style := ⟨background_color, text_color, true⟩ }
  else if theme = "intense_light" then
    let background_color := "white"
    let border_outline := "black"
    let text_color := "black"
    let danger_button_color := "black"
    let normal_button_color := "black"
    { background_color, border_outline, text_color,
      normal_button_color, danger_button_color,
      danger_button_style_sheet :=
        button_style_sheet danger_button_color background_color border_outline
          s.button_padding s.button_font_size,
      normal_button_style_sheet :=
        button_style_sheet normal_button_color background_color border_outline
          s.button_padding s.button_font_size,
      selected_tab_color := "black",
      selected_tab_text_color := "white",
      not_selected_tab_color := "white",
      not_selected_tab_text_color := "black",
      check_box_color := s.theme.check_box_color,
      dark_icon_bkgrnd_color := background_color,
      light_icon_bkgrnd_color := background_color,
      pop_up_window_style := ⟨background_color, text_color, false⟩ }
  else s.theme

/-- `set_color_theme(color_theme, first_time)` assigns the theme
attributes for the recognized theme name (lowered first), leaving every
other attribute of the window untouched, then (unless `first_time`)
re-applies the theme to the widgets. -/
def set_color_theme (color_theme : String) (first_time : Bool) (s : MainState) :
    MainState :=
  let theme := color_theme.toLower
  let s := { s with theme := theme_vars_for theme s }
  if ¬first_time then apply_theme_to_widgets s else s

/-- C8: for every theme identifier and every state of the status store, a
theme switch (`set_color_theme`, which on a non-first run ends by calling
`apply_theme_to_widgets`) leaves every entry of `feedback_dict`
unchanged: only theme attributes and widget styles are modified. -/
theorem set_color_theme_preserves_feedback (color_theme : String) (s : MainState)
    (k : MetricKey) (v : ℕ) :
    fb_get (set_color_theme color_theme false s).feedback_dict k v =
      fb_get s.feedback_dict k v := by
  unfold set_color_theme apply_theme_to_widgets
  split_ifs <;> rfl

/-! ### Mission loading (`load_missions_button` / `deploy_in_thread`)

Lines 872-949: each selected vehicle gets one mission file.  Valid
origins are collected in `origins` (the Python locals `origin_lat` /
`origin_long` keep the values of the last file whose `origin_lla` section
was present); non-empty waypoint lists go into `spec_paths_dict`.  After
the loop the origin is published only when `origins` is non-empty and all
collected origins are equal; every entry of `spec_paths_dict` is
published regardless.
-/

/-- A parsed `origin_lla` section (either coordinate may be missing). -/
structure OriginLLA where
  latitude : Option ℚ
  longitude : Option ℚ
  deriving DecidableEq, Repr

/-- A parsed mission YAML file: `origin_lla` may be absent, `waypoints`
defaults to the empty list, each waypoint holding its `position_enu`
coordinates. -/
structure MissionData where
  origin_lla : Option OriginLLA
  waypoints : List (ℚ × ℚ)
  deriving DecidableEq, Repr

/-- The loop state of `deploy_in_thread`: collected valid origins, the
`origin_lat`/`origin_long` locals as last assigned, `spec_paths_dict`, and
the warnings sent to the console. -/
structure DeployState where
  origins : List (ℚ × ℚ)
  origin_lat : Option ℚ
  origin_long : Option ℚ
  spec_paths_dict : List (ℕ × List (ℚ × ℚ))
  warnings : List (String × ℕ)
  deriving DecidableEq, Repr

/-- One iteration of the `for idx, vehicle_number in
enumerate(self.selected_vehicles)` loop body. -/
def deploy_step (st : DeployState) (entry : ℕ × MissionData) : DeployState :=
  let vehicle_number := entry.1
  let mission_data := entry.2
  let st :=
    match mission_data.origin_lla with
    | none =>
      { st with warnings := st.warnings ++
          [("Warning: missing origin_lla section", vehicle_number)] }
    | some origin_lla =>
      let st := { st with
        origin_lat := origin_lla.latitude
        origin_long := origin_lla.longitude }
      if origin_lla.latitude = none ∨ origin_lla.longitude = none then
        { st with warnings := st.warnings ++
            [("Warning: missing latitude or longitude in origin_lla", vehicle_number)] }
      else
        { st with origins := st.origins ++
            [(origin_lla.latitude.getD 0, origin_lla.longitude.getD 0)] }
  if mission_data.waypoints = [] then
    { st with warnings := st.warnings ++
        [("Warning: file has no waypoints", vehicle_number)] }
  else
    { st with spec_paths_dict :=
        dict_insert vehicle_number mission_data.waypoints st.spec_paths_dict }

/-- The whole per-file loop of `deploy_in_thread`. -/
def deploy_loop (files : List (ℕ × MissionData)) : DeployState :=
  files.foldl deploy_step ⟨[], none, none, [], []⟩

/-- The `publish_origin` decision after the loop: publish `(origin_lat,
origin_long)` only when `origins` is non-empty and every collected origin
equals the first one. -/
def deploy_origin_published (files : List (ℕ × MissionData)) :
    Option (Option ℚ × Option ℚ) :=
  let st := deploy_loop files
  match st.origins with
  | [] => none
  | first_origin :: _ =>
    if st.origins.all (fun origin => origin = first_origin) then
      some (st.origin_lat, st.origin_long)
    else none

/-- The per-vehicle waypoint paths published after the loop
(`publish_path` runs for every entry of `spec_paths_dict`). -/
def deploy_paths_published (files : List (ℕ × MissionData)) :
    List (ℕ × List (ℚ × ℚ)) :=
  (deploy_loop files).spec_paths_dict

theorem deploy_loop_origins_sound (files : List (ℕ × MissionData)) :
    ∀ st : DeployState,
      ∀ o ∈ (files.foldl deploy_step st).origins,
        o ∈ st.origins ∨ ∃ p ∈ files, ∃ ol, p.2.origin_lla = some ol ∧
          ol.latitude ≠ none ∧ ol.longitude ≠ none ∧
          o = (ol.latitude.getD 0, ol.longitude.getD 0) := by
  induction files with
  | nil => intro st o ho; exact Or.inl ho
  | cons f rest ih =>
    intro st o ho
    rw [List.foldl_cons] at ho
    rcases ih (deploy_step st f) o ho with hstep | ⟨p, hp, ol, hol⟩
    · -- the step itself either keeps or appends one origin
      unfold deploy_step at hstep
      cases hcfg : f.2.origin_lla with
      | none =>
        simp only [hcfg] at hstep
        split_ifs at hstep <;> exact Or.inl hstep
      | some origin_lla =>
        simp only [hcfg] at hstep
        by_cases hmiss : origin_lla.latitude = none ∨ origin_lla.longitude = none
        · rw [if_pos hmiss] at hstep
          split_ifs at hstep <;> exact Or.inl hstep
        · rw [if_neg hmiss] at hstep
          push_neg at hmiss
          have : o ∈ st.origins ++
              [(origin_lla.latitude.getD 0, origin_lla.longitude.getD 0)] := by
            split_ifs at hstep <;> exact hstep
          rcases List.mem_append.mp this with h | h
          · exact Or.inl h
          · refine Or.inr ⟨f, List.mem_cons_self _ _, origin_lla, hcfg,
              hmiss.1, hmiss.2, ?_⟩
            simpa using h
    · exact Or.inr ⟨p, List.mem_cons_of_mem _ hp, ol, hol⟩

theorem deploy_loop_paths (files : List (ℕ × MissionData))
    (hnodup : (files.map Prod.fst).Nodup) :
    ∀ p ∈ files, p.2.waypoints ≠ [] →
      dict_get? p.1 (deploy_loop files).spec_paths_dict = some p.2.waypoints := by
  unfold deploy_loop
  suffices h : ∀ (fs : List (ℕ × MissionData)) (st : DeployState),
      (fs.map Prod.fst).Nodup →
      ∀ p ∈ fs, p.2.waypoints ≠ [] →
        dict_get? p.1 (fs.foldl deploy_step st).spec_paths_dict =
          some p.2.waypoints by
    intro p hp hwp
    exact h files _ hnodup p hp hwp
  intro fs
  induction fs with
  | nil => intro st _ p hp; cases hp
  | cons f rest ih =>
    intro st hnd p hp hwp
    rw [List.map_cons, List.nodup_cons] at hnd
    rw [List.foldl_cons]
    rcases List.mem_cons.mp hp with hpf | hpr
    · subst hpf
      -- after the step, p's entry is present; the rest of the fold keeps it
      have hkept : dict_get? p.1 (deploy_step st p).spec_paths_dict =
          some p.2.waypoints := by
        unfold deploy_step
        cases hcfg : p.2.origin_lla with
        | none =>
          simp only [hcfg, if_neg hwp]
          exact dict_get?_insert_self _ _ _
        | some origin_lla =>
          simp only [hcfg, if_neg hwp]
          split_ifs <;> exact dict_get?_insert_self _ _ _
      -- entries of `rest` have different keys and cannot overwrite it
      have hpreserve : ∀ (gs : List (ℕ × MissionData)) (st' : DeployState),
          (∀ g ∈ gs, g.1 ≠ p.1) →
          dict_get? p.1 (gs.foldl deploy_step st').spec_paths_dict =
            dict_get? p.1 st'.spec_paths_dict := by
        intro gs
        induction gs with
        | nil => intro st' _; rfl
        | cons g tl ihg =>
          intro st' hne
          rw [List.foldl_cons,
            ihg _ (fun g' hg' => hne g' (List.mem_cons_of_mem _ hg'))]
          have hgne : g.1 ≠ p.1 := hne g (List.mem_cons_self _ _)
          unfold deploy_step
          cases hcfg : g.2.origin_lla with
          | none =>
            simp only [hcfg]
            split_ifs <;>
              first
              | rfl
              | exact dict_get?_insert_ne _ _ hgne.symm
          | some origin_lla =>
            simp only [hcfg]
            split_ifs <;>
              first
              | rfl
              | exact dict_get?_insert_ne _ _ hgne.symm
      rw [hpreserve rest (deploy_step st p)
        (fun g hg hgp => hnd.1 (hgp ▸ List.mem_map.mpr ⟨g, hg, rfl⟩)), hkept]
    · exact ih (deploy_step st f) hnd.2 p hpr hwp

/-- C5: when two mission files of a load disagree on `origin_lla` (both
files carrying complete origins, with different (latitude, longitude)
values), no origin message is published; yet every file with a non-empty
waypoints list still gets its per-vehicle waypoint path published. -/
theorem deploy_divergent_origins (files : List (ℕ × MissionData))
    (hnodup : (files.map Prod.fst).Nodup)
    (o₁ o₂ : ℚ × ℚ)
    (h₁ : o₁ ∈ (deploy_loop files).origins)
    (h₂ : o₂ ∈ (deploy_loop files).origins)
    (hne : o₁ ≠ o₂) :
    deploy_origin_published files = none ∧
      ∀ p ∈ files, p.2.waypoints ≠ [] →
        dict_get? p.1 (deploy_paths_published files) = some p.2.waypoints := by
  constructor
  · unfold deploy_origin_published
    cases horig : (deploy_loop files).origins with
    | nil => simp [horig]
    | cons first_origin tl =>
      have hall : ¬ ((first_origin :: tl).all (fun origin => origin = first_origin)) := by
        intro hall
        have heq : ∀ o ∈ (deploy_loop files).origins, o = first_origin := by
          intro o ho
          rw [horig] at ho
          have := List.all_eq_true.mp hall o ho
          simpa using this
        exact hne ((heq o₁ h₁).trans (heq o₂ h₂).symm)
      simp only [horig]
      rw [if_neg (by simpa using hall)]
  · exact deploy_loop_paths files hnodup

/-- Witness for C5: two vehicles, origins `(1, 2)` and `(3, 4)`, one
waypoint each — no origin published, both paths published. -/
theorem deploy_divergent_origins_witness :
    (deploy_origin_published
        [(1, ⟨some ⟨some 1, some 2⟩, [(5, 6)]⟩),
         (2, ⟨some ⟨some 3, some 4⟩, [(7, 8)]⟩)] = none ∧
      ∀ p ∈ [((1 : ℕ), (⟨some ⟨some 1, some 2⟩, [(5, 6)]⟩ : MissionData)),
             (2, ⟨some ⟨some 3, some 4⟩, [(7, 8)]⟩)],
        p.2.waypoints ≠ [] →
        dict_get? p.1 (deploy_paths_published
          [(1, ⟨some ⟨some 1, some 2⟩, [(5, 6)]⟩),
           (2, ⟨some ⟨some 3, some 4⟩, [(7, 8)]⟩)]) = some p.2.waypoints) :=
  deploy_divergent_origins
    [(1, ⟨some ⟨some 1, some 2⟩, [(5, 6)]⟩),
     (2, ⟨some ⟨some 3, some 4⟩, [(7, 8)]⟩)]
    (by decide) (1, 2) (3, 4) (by decide) (by decide) (by decide)

/-! ### Smoothed-output telemetry (`_update_gui_smoothed_output`)

Lines 2196-2238: position, heading (from the externally computed yaw),
and the two velocity magnitudes `math.sqrt(v.x**2 + v.y**2 + v.z**2)`,
each stored through Python's `round(x, 2)`.  The float arithmetic is
modelled over the reals; `round` is Python's round-half-to-even, made
explicit below, and the quaternion-to-yaw conversion (the external
`transforms3d.quat2euler` call) enters as the `yaw` argument.
-/

/-- A 3-vector of a twist message. -/
structure Vec3 where
  x : ℝ
  y : ℝ
  z : ℝ

/-- Python `%` on reals (used for `math.degrees(yaw) % 360`). -/
noncomputable def py_floor_mod (a b : ℝ) : ℝ := a - b * ⌊a / b⌋

/-- Python `round` to an integer: nearest integer, ties to even. -/
noncomputable def py_round_int (r : ℝ) : ℤ :=
  if r - ⌊r⌋ < 1 / 2 then ⌊r⌋
  else if 1 / 2 < r - ⌊r⌋ then ⌊r⌋ + 1
  else if Even ⌊r⌋ then ⌊r⌋ else ⌊r⌋ + 1

/-- Python `round(r, 2)` on reals. -/
noncomputable def py_round2 (r : ℝ) : ℝ := (py_round_int (r * 100) : ℝ) / 100

/-- The per-vehicle values `_update_gui_smoothed_output` stores (the
numeric entries of `feedback_dict` it writes, as real numbers). -/
structure SmoothedTelemetry where
  xpos : ℕ → ℝ
  ypos : ℕ → ℝ
  heading : ℕ → ℝ
  dvl_vel : ℕ → ℝ
  angular_vel : ℕ → ℝ

/-- `_update_gui_smoothed_output(vehicle_number, msg)`: `yaw` is the third
Euler angle `quat2euler` returned for the message's orientation; `l_vel`
and `a_vel` are `msg.twist.twist.linear` / `.angular`. -/
noncomputable def update_gui_smoothed_output (st : SmoothedTelemetry)
    (vehicle_number : ℕ) (pos_x pos_y yaw : ℝ) (l_vel a_vel : Vec3) :
    SmoothedTelemetry :=
  let heading_deg := py_floor_mod (yaw * (180 / Real.pi)) 360
  let total_linear_vel := Real.sqrt (l_vel.x ^ 2 + l_vel.y ^ 2 + l_vel.z ^ 2)
  let total_angular_vel := Real.sqrt (a_vel.x ^ 2 + a_vel.y ^ 2 + a_vel.z ^ 2)
  { xpos := Function.update st.xpos vehicle_number (py_round2 pos_x)
    ypos := Function.update st.ypos vehicle_number (py_round2 pos_y)
    heading := Function.update st.heading vehicle_number (py_round2 heading_deg)
    dvl_vel := Function.update st.dvl_vel vehicle_number (py_round2 total_linear_vel)
    angular_vel :=
      Function.update st.angular_vel vehicle_number (py_round2 total_angular_vel) }

theorem py_round_int_intCast (n : ℤ) : py_round_int (n : ℝ) = n := by
  unfold py_round_int
  rw [Int.floor_intCast]
  norm_num

/-- `⌊100·√2⌋ = 141` and the fractional part is below one half. -/
theorem sqrt_two_hundredfold_bounds :
    (141 : ℝ) ≤ 100 * Real.sqrt 2 ∧ 100 * Real.sqrt 2 < 141.5 := by
  constructor
  · have h : (1.41 : ℝ) ≤ Real.sqrt 2 := by
      rw [show (1.41 : ℝ) = Real.sqrt (1.41 ^ 2) by
        rw [Real.sqrt_sq (by norm_num)]]
      exact Real.sqrt_le_sqrt (by norm_num)
    nlinarith
  · have h : Real.sqrt 2 < 1.415 := by
      have h2 : Real.sqrt 2 < Real.sqrt (1.415 ^ 2) := by
        apply Real.sqrt_lt_sqrt (by norm_num)
        norm_num
      rwa [Real.sqrt_sq (by norm_num)] at h2
    nlinarith

theorem py_round2_sqrt_two : py_round2 (Real.sqrt 2) = 141 / 100 := by
  obtain ⟨hlo, hhi⟩ := sqrt_two_hundredfold_bounds
  have hfloor : ⌊Real.sqrt 2 * 100⌋ = 141 := by
    rw [Int.floor_eq_iff]
    constructor
    · push_cast; nlinarith
    · push_cast; nlinarith
  unfold py_round2 py_round_int
  rw [hfloor, if_pos (by push_cast; nlinarith)]
  norm_num

theorem sqrt_two_ne_141_div_100 : Real.sqrt 2 ≠ 141 / 100 := by
  intro h
  have hsq := Real.sq_sqrt (show (0 : ℝ) ≤ 2 by norm_num)
  rw [h] at hsq
  norm_num at hsq

/-- C6's counterexample: the claim says the stored linear-velocity value
IS the Euclidean norm of the linear twist vector; at linear velocity
`(1, 1, 0)` the code stores `round(√2, 2) = 1.41`, which is not `√2`. -/
theorem update_smoothed_stores_rounded_norm_counterexample :
    (update_gui_smoothed_output ⟨fun _ => 2, fun _ => 2, fun _ => 2, fun _ => 2,
        fun _ => 2⟩ 1 0 0 0 ⟨1, 1, 0⟩ ⟨0, 0, 0⟩).dvl_vel 1 ≠
      Real.sqrt (1 ^ 2 + 1 ^ 2 + 0 ^ 2) := by
  unfold update_gui_smoothed_output
  simp only [Function.update_same]
  rw [show ((1 : ℝ) ^ 2 + 1 ^ 2 + 0 ^ 2) = 2 by norm_num, py_round2_sqrt_two]
  exact fun h => sqrt_two_ne_141_div_100 h.symm

/-- C6, amended: the stored linear- and angular-velocity values are the
Euclidean norms of the twist vectors rounded to two decimals (Python
`round(x, 2)`); in particular a linear velocity `(3, 4, 0)` is stored as
exactly `5.0` and an angular velocity `(0, 0, 0)` as `0.0`. -/
theorem update_smoothed_velocity_norms (st : SmoothedTelemetry)
    (vehicle_number : ℕ) (pos_x pos_y yaw : ℝ) (l_vel a_vel : Vec3) :
    (update_gui_smoothed_output st vehicle_number pos_x pos_y yaw l_vel a_vel).dvl_vel
        vehicle_number =
      py_round2 (Real.sqrt (l_vel.x ^ 2 + l_vel.y ^ 2 + l_vel.z ^ 2)) ∧
    (update_gui_smoothed_output st vehicle_number pos_x pos_y yaw l_vel a_vel).angular_vel
        vehicle_number =
      py_round2 (Real.sqrt (a_vel.x ^ 2 + a_vel.y ^ 2 + a_vel.z ^ 2)) ∧
    (update_gui_smoothed_output st vehicle_number pos_x pos_y yaw
        ⟨3, 4, 0⟩ ⟨0, 0, 0⟩).dvl_vel vehicle_number = 5 ∧
    (update_gui_smoothed_output st vehicle_number pos_x pos_y yaw
        ⟨3, 4, 0⟩ ⟨0, 0, 0⟩).angular_vel vehicle_number = 0 := by
  refine ⟨?_, ?_, ?_, ?_⟩
  · unfold update_gui_smoothed_output
    simp [Function.update_same]
  · unfold update_gui_smoothed_output
    simp [Function.update_same]
  · unfold update_gui_smoothed_output
    simp only [Function.update_same]
    rw [show ((3 : ℝ) ^ 2 + 4 ^ 2 + 0 ^ 2) = 25 by norm_num,
      show (25 : ℝ) = 5 ^ 2 by norm_num, Real.sqrt_sq (by norm_num : (0 : ℝ) ≤ 5),
      py_round2, show ((5 : ℝ) * 100) = ((500 : ℤ) : ℝ) by norm_num,
      py_round_int_intCast]
    norm_num
  · unfold update_gui_smoothed_output
    simp only [Function.update_same]
    rw [show ((0 : ℝ) ^ 2 + 0 ^ 2 + 0 ^ 2) = 0 by norm_num, Real.sqrt_zero,
      py_round2, show ((0 : ℝ) * 100) = ((0 : ℤ) : ℝ) by norm_num,
      py_round_int_intCast]
    norm_num

end BaseStation
